import Mathlib

/-
  Verification of the bookmark_server backend (src/app.py, src/services/firebase.py).

  The embedding models Python module evaluation explicitly: the environment is a
  partial map from variable names to values, the filesystem is an existence
  predicate on paths, and the class-level state of FirebaseService is a record.
  Exceptions raised during evaluation are values of PyError.
-/

namespace BookmarkServer

/-- The process environment: os.getenv returns some value or none. -/
abbrev Env := String → Option String

/-- The filesystem, abstracted to os.path.exists. -/
abbrev Fs := String → Bool

/-- Python exceptions that module evaluation of this repository can raise. -/
inductive PyError where
  | attributeError (cls attr : String)
  | runtimeError (msg : String)
  | valueError (msg : String)
deriving DecidableEq, Repr

/-- HTTP methods used by the live routes (only GET appears in app.py). -/
inductive Method where
  | get
deriving DecidableEq, Repr

/-- An inbound HTTP request: method, path, and headers. -/
structure Request where
  method : Method
  path : String
  headers : List (String × String)
deriving DecidableEq, Repr

/-- An HTTP response: status code and a flat JSON-object body. -/
structure Response where
  status : Nat
  body : List (String × String)
deriving DecidableEq, Repr

/-- os.getenv('FIREBASE_CRED_PATH', 'firebase_credentials.json') as evaluated in
FirebaseService._initialize_firebase (services/firebase.py line 18). -/
def resolveCredPath (env : Env) : String :=
  (env ("FIREBASE_CRED_PATH")).getD ("firebase_credentials.json")

/-- Class-level state of FirebaseService: the _instance and _app class
attributes (instances and SDK app handles are identified by allocation
numbers drawn from nextId), plus a counter of how many times the SDK
call initialize_app has run. -/
structure FbState where
  inst : Option Nat
  app : Option Nat
  nextId : Nat
  initCalls : Nat
deriving DecidableEq, Repr

/-- The class state when the module services/firebase.py starts evaluating:
_instance = None and _app = None. -/
def FbState.start : FbState := ⟨none, none, 0, 0⟩

/-- FirebaseService._initialize_firebase (services/firebase.py lines 15-22):
when the class-level _app is still None, resolve the credential path from the
environment, raise RuntimeError when no file exists at that path, and
otherwise build the credential and call initialize_app, storing the handle in
_app. When _app is already set the body does nothing. -/
def initFirebase (env : Env) (fs : Fs) (s : FbState) : Except PyError FbState :=
  match s.app with
  | some _ => Except.ok s
  | none =>
    let p := resolveCredPath env
    if fs p then
      Except.ok { s with app := some s.nextId, nextId := s.nextId + 1,
                         initCalls := s.initCalls + 1 }
    else
      Except.error (PyError.runtimeError ("Firebase credentials file not found."))

/-- FirebaseService.__new__ (services/firebase.py lines 9-13): when _instance
is None, allocate a fresh instance, store it in _instance, then run
_initialize_firebase; afterwards return _instance. When _instance is already
set, return it unchanged. The result pairs the constructor's outcome with the
class state after the call; note that when _initialize_firebase raises, the
freshly allocated instance has already been stored in _instance. -/
def FirebaseService.new (env : Env) (fs : Fs) (s : FbState) :
    Except PyError Nat × FbState :=
  match s.inst with
  | some i => (Except.ok i, s)
  | none =>
    let i := s.nextId
    let s1 : FbState := { s with inst := some i, nextId := s.nextId + 1 }
    match initFirebase env fs s1 with
    | Except.ok s2 => (Except.ok i, s2)
    | Except.error e => (Except.error e, s1)

/-- The attribute names the class body of FirebaseService defines
(services/firebase.py lines 5-22). -/
def FirebaseService.attrs : List String :=
  ["_instance", "_app", "__new__", "_initialize_firebase"]

/-- Python attribute lookup FirebaseService.<name>: succeeds exactly on the
attributes the class body defines, and raises AttributeError otherwise. -/
def FirebaseService.getattr (name : String) : Except PyError String :=
  if name ∈ FirebaseService.attrs then Except.ok name
  else Except.error (PyError.attributeError ("FirebaseService") name)

/-- Evaluating module services/firebase.py: the class body executes, then the
module-level statement firebase_service = FirebaseService() (line 26) runs the
constructor on the fresh class state. -/
def firebaseModuleLoad (env : Env) (fs : Fs) : Except PyError Nat × FbState :=
  FirebaseService.new env fs FbState.start

/-- Outcome of evaluating module app.py: the routes registered on the FastAPI
app object up to the point the evaluation finished or raised, and the
exception it raised, if any. -/
structure AppEval where
  routes : List (Method × String)
  err : Option PyError
deriving DecidableEq, Repr

/-- Evaluating module app.py statement by statement: the import of
services.firebase (line 6) constructs the singleton; then app = FastAPI();
then the decorator @app.get('/') registers the root route (lines 18-20); then
the def statement for get_current_user (lines 22-24) evaluates its default
argument Depends(FirebaseService.verify_firebase_user), an attribute lookup
on FirebaseService, before the decorator for /users/me could apply. -/
def appModuleLoad (env : Env) (fs : Fs) : AppEval :=
  match (firebaseModuleLoad env fs).1 with
  | Except.error e => ⟨[], some e⟩
  | Except.ok _ =>
    let r1 : List (Method × String) := [(Method.get, "/")]
    match FirebaseService.getattr ("verify_firebase_user") with
    | Except.error e => ⟨r1, some e⟩
    | Except.ok _ => ⟨r1 ++ [(Method.get, "/users/me")], none⟩

/-- The root handler (app.py lines 18-20): returns the fixed message dict,
which FastAPI serializes as a 200 JSON response. -/
def root : Response :=
  ⟨200, [("message", "<h1>Service is running successfully</h1>")]⟩

/-- The identity object the guard would pass to the /users/me handler. -/
structure UserRecord where
  uid : String
  email : String
deriving DecidableEq, Repr

/-- The handler body of get_current_user (app.py line 24), applied to the
identity object its guard dependency would supply. -/
def getCurrentUserBody (u : UserRecord) : Response :=
  ⟨200, [("uid", u.uid), ("email", u.email)]⟩

/-- Routing of a successfully loaded app: a registered GET / serves root; the
/users/me entry has no handler value (its construction raised); unregistered
paths get FastAPI's 404. -/
def dispatch (routes : List (Method × String)) (req : Request) : Option Response :=
  if (req.method, req.path) ∈ routes then
    if req.path = "/" then some root else none
  else some ⟨404, [("detail", "Not Found")]⟩

/-- End-to-end behavior of one request against a server started from app.py:
when module evaluation raises, the server process never starts, so no request
receives any response. -/
def serve (env : Env) (fs : Fs) (req : Request) : Option Response :=
  match (appModuleLoad env fs).err with
  | some _ => none
  | none => dispatch (appModuleLoad env fs).routes req

/-- n successive constructor calls FirebaseService() starting from class state
s, collecting each call's outcome in order. -/
def constructN (env : Env) (fs : Fs) : Nat → FbState → FbState × List (Except PyError Nat)
  | 0, s => (s, [])
  | n + 1, s =>
    let r := FirebaseService.new env fs s
    let rest := constructN env fs n r.2
    (rest.1, r.1 :: rest.2)

/-
  Interleaving model of two threads each executing FirebaseService() at cold
  start, with the body of _initialize_firebase inlined into __new__. Each pc
  value is one atomic action; the CPython interpreter may switch threads
  between any two of them.
-/

/-- One thread's progress through FirebaseService.__new__.
pc 1: evaluate (cls._instance is None);
pc 2: allocate the instance and write cls._instance;
pc 3: evaluate (cls._app is None);
pc 4: resolve the path, check the file, and call the SDK initialize_app,
      which raises ValueError when the SDK-global default app already exists;
pc 5: write the returned handle to cls._app;
pc 6: read cls._instance for the return statement;
pc 7: done. -/
structure ThreadSt where
  pc : Nat
  pending : Option Nat
  ret : Option Nat
  err : Option PyError
deriving DecidableEq, Repr

/-- State shared by the threads: the class attributes _instance and _app, the
firebase_admin SDK's own global default-app slot, an allocation counter, and a
counter of completed SDK app constructions. -/
structure Shared where
  inst : Option Nat
  app : Option Nat
  sdkApp : Option Nat
  nextId : Nat
  sdkCalls : Nat
deriving DecidableEq, Repr

/-- One atomic step of a thread inside FirebaseService.__new__; a thread that
has raised takes no further steps. -/
def stepNew (env : Env) (fs : Fs) (g : Shared) (t : ThreadSt) : Shared × ThreadSt :=
  if t.err.isSome then (g, t) else
  match t.pc with
  | 1 => (g, { t with pc := if g.inst.isSome then 6 else 2 })
  | 2 => ({ g with inst := some g.nextId, nextId := g.nextId + 1 }, { t with pc := 3 })
  | 3 => (g, { t with pc := if g.app.isSome then 6 else 4 })
  | 4 =>
    if fs (resolveCredPath env) then
      match g.sdkApp with
      | some _ =>
        (g, { t with err := some (PyError.valueError
               ("The default Firebase app already exists.")) })
      | none =>
        ({ g with sdkApp := some g.nextId, nextId := g.nextId + 1,
                  sdkCalls := g.sdkCalls + 1 },
         { t with pc := 5, pending := some g.nextId })
    else
      (g, { t with err := some (PyError.runtimeError
             ("Firebase credentials file not found.")) })
  | 5 => ({ g with app := t.pending }, { t with pc := 6, pending := none })
  | 6 => (g, { t with pc := 7, ret := g.inst })
  | _ => (g, t)

/-- The interleaved system: shared state plus the two threads a and b. -/
structure Conc where
  sh : Shared
  ta : ThreadSt
  tb : ThreadSt
deriving DecidableEq, Repr

/-- A thread about to enter FirebaseService.__new__. -/
def ThreadSt.begin : ThreadSt := ⟨1, none, none, none⟩

/-- Cold start: nothing initialized, both threads about to construct. -/
def Conc.begin : Conc := ⟨⟨none, none, none, 0, 0⟩, ThreadSt.begin, ThreadSt.begin⟩

/-- Run a schedule: true steps thread a, false steps thread b. -/
def runSched (env : Env) (fs : Fs) : List Bool → Conc → Conc
  | [], c => c
  | tid :: rest, c =>
    if tid then
      let r := stepNew env fs c.sh c.ta
      runSched env fs rest ⟨r.1, r.2, c.tb⟩
    else
      let r := stepNew env fs c.sh c.tb
      runSched env fs rest ⟨r.1, c.ta, r.2⟩

/-
  Helper lemmas shared by the claim theorems.
-/

/-- A constructor call that returns ok i leaves _instance = some i. -/
theorem new_ok_inst (env : Env) (fs : Fs) (s s' : FbState) (i : Nat)
    (h : FirebaseService.new env fs s = (Except.ok i, s')) : s'.inst = some i := by
  cases hs : s.inst with
  | some j =>
    simp only [FirebaseService.new, hs] at h
    rw [Prod.mk.injEq] at h
    obtain ⟨h1, h2⟩ := h
    injection h1 with h1
    subst h1
    subst h2
    exact hs
  | none =>
    simp only [FirebaseService.new, hs, initFirebase] at h
    cases ha : s.app with
    | some a =>
      rw [ha] at h
      simp only [] at h
      rw [Prod.mk.injEq] at h
      obtain ⟨h1, h2⟩ := h
      injection h1 with h1
      subst h1
      subst h2
      rfl
    | none =>
      rw [ha] at h
      cases hif : fs (resolveCredPath env) with
      | true =>
        rw [hif] at h
        simp only [if_true] at h
        rw [Prod.mk.injEq] at h
        obtain ⟨h1, h2⟩ := h
        injection h1 with h1
        subst h1
        subst h2
        rfl
      | false =>
        rw [hif] at h
        simp only [Bool.false_eq_true, if_false] at h
        rw [Prod.mk.injEq] at h
        exact Except.noConfusion h.1

/-- A constructor call on a state whose _instance is set returns that instance
and changes nothing. -/
theorem new_stable (env : Env) (fs : Fs) (s : FbState) (i : Nat)
    (h : s.inst = some i) : FirebaseService.new env fs s = (Except.ok i, s) := by
  simp only [FirebaseService.new, h]

/-- A constructor call on a state whose _app is set preserves _app and
performs no SDK initialization. -/
theorem new_app_stable (env : Env) (fs : Fs) (s : FbState) (a : Nat)
    (h : s.app = some a) :
    (FirebaseService.new env fs s).2.app = some a ∧
    (FirebaseService.new env fs s).2.initCalls = s.initCalls := by
  cases hs : s.inst with
  | some j =>
    simp only [FirebaseService.new, hs]
    simp [h]
  | none =>
    simp only [FirebaseService.new, hs, initFirebase, h]
    simp [h]

/-- Evaluating app.py always raises: either the credential check fails during
the import of services.firebase, or the attribute lookup
FirebaseService.verify_firebase_user fails. -/
theorem appModuleLoad_raises (env : Env) (fs : Fs) :
    (appModuleLoad env fs).err.isSome = true := by
  unfold appModuleLoad firebaseModuleLoad FirebaseService.new FbState.start initFirebase
  cases hif : fs (resolveCredPath env) with
  | true => simp [hif, FirebaseService.getattr, FirebaseService.attrs]
  | false => simp [hif]

/-- The routes registered before app.py's evaluation raises: none when
importing services.firebase raises, only GET / when the lookup raises. -/
theorem appModuleLoad_routes (env : Env) (fs : Fs) :
    (appModuleLoad env fs).routes = [] ∨
    (appModuleLoad env fs).routes = [(Method.get, "/")] := by
  unfold appModuleLoad firebaseModuleLoad FirebaseService.new FbState.start initFirebase
  cases hif : fs (resolveCredPath env) with
  | true => simp [hif, FirebaseService.getattr, FirebaseService.attrs]
  | false => simp [hif]

/-- Because app.py never finishes evaluating, no request ever gets a response. -/
theorem serve_none (env : Env) (fs : Fs) (req : Request) :
    serve env fs req = none := by
  have h := appModuleLoad_raises env fs
  unfold serve
  cases he : (appModuleLoad env fs).err with
  | none => rw [he] at h; simp at h
  | some e => rfl

/-
  Claim theorems.
-/

/-- Claim C1 counterexample: with the credential file present, evaluating
app.py raises AttributeError for verify_firebase_user, but at the point of
the failure the GET / route has already been registered (lines 18-20 run
first), refuting the clause "before any route is registered". -/
theorem C1_counterexample :
    (appModuleLoad (fun _ => none) (fun _ => true)).err
      = some (PyError.attributeError ("FirebaseService") ("verify_firebase_user"))
    ∧ (appModuleLoad (fun _ => none) (fun _ => true)).routes ≠ [] := by
  decide

/-- Claim C1 (amended): FirebaseService defines no attribute named
verify_firebase_user, so whenever the credential file exists (so that
importing services.firebase succeeds), evaluating app.py raises AttributeError
at the get_current_user definition — after registering GET / but before
registering GET /users/me — and the failed module load means no request ever
receives a response. -/
theorem C1_attr_lookup_fails (env : Env) (fs : Fs)
    (h : fs (resolveCredPath env) = true) :
    FirebaseService.getattr ("verify_firebase_user")
      = Except.error (PyError.attributeError ("FirebaseService") ("verify_firebase_user"))
    ∧ (appModuleLoad env fs).err
      = some (PyError.attributeError ("FirebaseService") ("verify_firebase_user"))
    ∧ (appModuleLoad env fs).routes = [(Method.get, "/")]
    ∧ ∀ req, serve env fs req = none := by
  have h1 : (firebaseModuleLoad env fs).1 = Except.ok 0 := by
    simp [firebaseModuleLoad, FirebaseService.new, FbState.start, initFirebase, h]
  refine ⟨rfl, ?_, ?_, fun req => serve_none env fs req⟩ <;>
    simp [appModuleLoad, h1, FirebaseService.getattr, FirebaseService.attrs]

/-- Claim C1 witness instance: concretely, a GET /users/me request against a
deployment with the credential file present receives no response. -/
theorem C1_witness :
    serve (fun _ => none) (fun _ => true) ⟨Method.get, "/users/me", []⟩ = none :=
  (C1_attr_lookup_fails (fun _ => none) (fun _ => true) rfl).2.2.2
    ⟨Method.get, "/users/me", []⟩

/-- Claim C2 (code evaluated at the failing input): the referenced guard
FirebaseService.verify_firebase_user does not exist, evaluating app.py
raises, and so a GET /users/me request — with any headers, in particular with
the Authorization header absent or malformed — receives no response at all,
not the claimed 401. -/
theorem C2_guard_missing (env : Env) (fs : Fs) :
    FirebaseService.getattr ("verify_firebase_user")
      = Except.error (PyError.attributeError ("FirebaseService") ("verify_firebase_user"))
    ∧ ∀ hdrs, serve env fs ⟨Method.get, "/users/me", hdrs⟩ = none :=
  ⟨rfl, fun hdrs => serve_none env fs ⟨Method.get, "/users/me", hdrs⟩⟩

/-- Claim C3 (code evaluated at the failing input): a GET /users/me request
carrying any bearer token receives no response — the provider verification
call is never reached because app.py never finishes evaluating. -/
theorem C3_invalid_token_no_response (env : Env) (fs : Fs) (tok : String) :
    serve env fs ⟨Method.get, "/users/me",
        [("Authorization", "Bearer " ++ tok)]⟩ = none
    ∧ (appModuleLoad env fs).err.isSome = true :=
  ⟨serve_none env fs _, appModuleLoad_raises env fs⟩

/-- Claim C4 (code evaluated at the failing input): no GET /users/me request
— even one whose bearer token the provider would verify — receives any
response, and the /users/me route is never registered during the failed
evaluation of app.py. -/
theorem C4_valid_token_no_200 (env : Env) (fs : Fs) (tok : String) (r : Response) :
    serve env fs ⟨Method.get, "/users/me",
        [("Authorization", "Bearer " ++ tok)]⟩ ≠ some r
    ∧ (Method.get, "/users/me") ∉ (appModuleLoad env fs).routes := by
  refine ⟨?_, ?_⟩
  · rw [serve_none env fs _]
    exact fun hc => Option.noConfusion hc
  · rcases appModuleLoad_routes env fs with h | h <;> rw [h] <;> decide

/-- Claim C9 (code evaluated at the failing input): the root handler itself
returns the fixed 200 payload and its dispatch ignores the request headers,
but because app.py never finishes evaluating, a GET / request receives no
response from a server started from this module. -/
theorem C9_root_never_serves (env : Env) (fs : Fs) (hdrs : List (String × String)) :
    serve env fs ⟨Method.get, "/", hdrs⟩ = none
    ∧ root = ⟨200, [("message", "<h1>Service is running successfully</h1>")]⟩
    ∧ ∀ rs, (Method.get, "/") ∈ rs →
        dispatch rs ⟨Method.get, "/", hdrs⟩ = some root := by
  refine ⟨serve_none env fs _, rfl, fun rs hmem => ?_⟩
  simp [dispatch, hmem]

/-- Claim C9 witness instance: concretely, GET / with no headers gets no
response from the broken module, though a route table holding GET / would
dispatch it to the fixed-payload handler. -/
theorem C9_witness :
    serve (fun _ => none) (fun _ => false) ⟨Method.get, "/", []⟩ = none
    ∧ dispatch [(Method.get, "/")] ⟨Method.get, "/", []⟩ = some root :=
  ⟨(C9_root_never_serves (fun _ => none) (fun _ => false) []).1,
   (C9_root_never_serves (fun _ => none) (fun _ => false) []).2.2
     [(Method.get, "/")] (by decide)⟩

/-- Claim C5: when no file exists at the resolved credential path, the
constructor run by the module-level statement of services/firebase.py raises
RuntimeError, the import in app.py propagates it before any route is
registered, and no request ever receives a response. -/
theorem C5_missing_cred_aborts (env : Env) (fs : Fs)
    (h : fs (resolveCredPath env) = false) :
    (firebaseModuleLoad env fs).1
      = Except.error (PyError.runtimeError ("Firebase credentials file not found."))
    ∧ appModuleLoad env fs
      = ⟨[], some (PyError.runtimeError ("Firebase credentials file not found."))⟩
    ∧ ∀ req, serve env fs req = none := by
  have h1 : (firebaseModuleLoad env fs).1
      = Except.error (PyError.runtimeError ("Firebase credentials file not found.")) := by
    simp [firebaseModuleLoad, FirebaseService.new, FbState.start, initFirebase, h]
  exact ⟨h1, by simp [appModuleLoad, h1], fun req => serve_none env fs req⟩

/-- Claim C5 witness instance: with an empty filesystem, app.py's evaluation
stops at the import with the RuntimeError and an empty route table. -/
theorem C5_witness :
    appModuleLoad (fun _ => none) (fun _ => false)
      = ⟨[], some (PyError.runtimeError ("Firebase credentials file not found."))⟩ :=
  (C5_missing_cred_aborts (fun _ => none) (fun _ => false) rfl).2.1

/-- Claim C6: constructing FirebaseService is idempotent sequentially — after
any successful construction returning instance i in class state s', every
further construction attempt, any number of times, returns the same instance
i and leaves the class state (including the SDK-initialization count)
unchanged. -/
theorem C6_singleton_idempotent (env : Env) (fs : Fs) (s s' : FbState) (i : Nat)
    (h : FirebaseService.new env fs s = (Except.ok i, s')) :
    ∀ n, constructN env fs n s' = (s', List.replicate n (Except.ok i)) := by
  have hi : s'.inst = some i := new_ok_inst env fs s s' i h
  intro n
  induction n with
  | zero => simp [constructN]
  | succ n ih =>
    simp only [constructN, new_stable env fs s' i hi, ih, List.replicate_succ]

/-- Claim C6 witness instance: after the cold-start construction yields
instance 0 in state ⟨some 0, some 1, 2, 1⟩, three further constructions all
return instance 0 and change nothing. -/
theorem C6_witness :
    constructN (fun _ => none) (fun _ => true) 3 ⟨some 0, some 1, 2, 1⟩
      = (⟨some 0, some 1, 2, 1⟩, List.replicate 3 (Except.ok 0)) :=
  C6_singleton_idempotent (fun _ => none) (fun _ => true) FbState.start
    ⟨some 0, some 1, 2, 1⟩ 0 rfl 3

/-- Claim C7 counterexample: __new__ takes no lock, and in the interleaving
where both threads pass the _instance check before either assignment, the
second thread reaches the SDK call while the default app already exists and
crashes with the duplicate-app ValueError — a race-induced
duplicate-initialization failure, refuting the claimed lock-protected
exactly-once construction. -/
theorem C7_counterexample :
    ((runSched (fun _ => none) (fun _ => true)
        [true, false, true, true, true, false, false, false] Conc.begin).tb.err)
      = some (PyError.valueError ("The default Firebase app already exists.")) := by
  decide

/-- Claim C7 (amended): the construction is exactly-once only when the
attempts do not interleave — when thread a completes __new__ before thread b
starts, both finish without error, the SDK initializes exactly once, and both
threads return the same single instance. -/
theorem C7_sequential_exclusive (env : Env) (fs : Fs)
    (h : fs (resolveCredPath env) = true) :
    (runSched env fs [true, true, true, true, true, true, false, false]
        Conc.begin).ta.err = none
    ∧ (runSched env fs [true, true, true, true, true, true, false, false]
        Conc.begin).tb.err = none
    ∧ (runSched env fs [true, true, true, true, true, true, false, false]
        Conc.begin).sh.sdkCalls = 1
    ∧ (runSched env fs [true, true, true, true, true, true, false, false]
        Conc.begin).ta.ret = some 0
    ∧ (runSched env fs [true, true, true, true, true, true, false, false]
        Conc.begin).tb.ret = some 0 := by
  simp [runSched, stepNew, Conc.begin, ThreadSt.begin, h]

/-- Claim C7 witness instance: with the credential file present, the
non-interleaved schedule initializes the SDK exactly once. -/
theorem C7_witness :
    (runSched (fun _ => none) (fun _ => true)
        [true, true, true, true, true, true, false, false] Conc.begin).sh.sdkCalls = 1 :=
  (C7_sequential_exclusive (fun _ => none) (fun _ => true) rfl).2.2.1

/-- Claim C8: the credential path is read from FIREBASE_CRED_PATH and is
exactly the fixed filename firebase_credentials.json when that variable is
unset. -/
theorem C8_cred_path_resolution (env : Env) :
    ((env ("FIREBASE_CRED_PATH")) = none →
      resolveCredPath env = "firebase_credentials.json")
    ∧ ∀ p, (env ("FIREBASE_CRED_PATH")) = some p → resolveCredPath env = p := by
  refine ⟨fun h => ?_, fun p h => ?_⟩ <;> simp [resolveCredPath, h]

/-- Claim C8 witness instance: with the variable unset the resolved path is
the fixed default filename. -/
theorem C8_witness :
    resolveCredPath (fun _ => none) = "firebase_credentials.json" :=
  (C8_cred_path_resolution (fun _ => none)).1 rfl

/-- Claim C10: once _app holds a handle, any number of further constructor
calls — the only operations that touch FirebaseService state — leave _app
unchanged and perform no further SDK initialization; and the /users/me
handler body is a pure function of the identity its guard would supply, so no
verification result persists across requests. -/
theorem C10_app_readonly (env : Env) (fs : Fs) (s : FbState) (a : Nat)
    (h : s.app = some a) :
    (∀ n, (constructN env fs n s).1.app = some a
      ∧ (constructN env fs n s).1.initCalls = s.initCalls)
    ∧ ∀ u, getCurrentUserBody u = ⟨200, [("uid", u.uid), ("email", u.email)]⟩ := by
  refine ⟨fun n => ?_, fun u => rfl⟩
  induction n generalizing s with
  | zero => exact ⟨h, rfl⟩
  | succ n ih =>
    have hstep := new_app_stable env fs s a h
    have hrec := ih (FirebaseService.new env fs s).2 hstep.1
    simp only [constructN]
    exact ⟨hrec.1, hrec.2.trans hstep.2⟩

/-- Claim C10 witness instance: starting from the post-initialization state,
two further constructions leave the handle in place. -/
theorem C10_witness :
    (constructN (fun _ => none) (fun _ => true) 2 ⟨some 0, some 1, 2, 1⟩).1.app
      = some 1 :=
  ((C10_app_readonly (fun _ => none) (fun _ => true) ⟨some 0, some 1, 2, 1⟩ 1 rfl).1 2).1

end BookmarkServer
